import Mathlib

/-!
Verification of the TikTok-Product-Scout core against its specification.

The definitions below are a shallow embedding of the Python source:

* `src/storage/models.py`  — the data model (products, observations,
  supplier matches, alerts), embedded as Lean structures with `Option`
  fields for nullable columns; timestamps are rationals measured in hours.
* `src/storage/database.py` — `upsert_product`, `_find_matching_product`,
  `_normalize_name`, `_calculate_deltas`, `save_supplier_match`,
  `get_alert_candidates`, embedded as pure functions over an explicit
  database state (`DB`), a list per table.
* `src/scoring/*.py` and `src/orchestrator/coordinator.py` are embedded
  further down.

Floating point numbers are modelled as rationals (or reals where the code
takes real powers); machine floats agree with the rational semantics on
all concrete inputs used here.
-/

/-- One scraped record pushed by an agent; embeds the pydantic model
`ScrapedProduct` of `src/storage/models.py` / `src/agents/base_agent.py`.
`scrapedAt` is the `scraped_at` timestamp, in hours. -/
structure Scraped where
  source : String
  sourceId : String
  name : String
  category : Option String
  priceUsd : Option ℚ
  views : Option ℤ
  sales : Option ℤ
  orders : Option ℤ
  reviews : Option ℤ
  rating : Option ℚ
  scrapedAt : ℚ
deriving DecidableEq, Repr

/-- A row of the `products` table (`Product` in `src/storage/models.py`). -/
structure ProductRow where
  id : ℕ
  canonicalName : String
  category : Option String
  firstSeenAt : ℚ
  lastUpdatedAt : ℚ
  compositeScore : ℚ
  velocityScore : ℚ
  marginScore : ℚ
  saturationScore : ℚ
  isActive : Bool
  isAlerted : Bool
deriving DecidableEq, Repr

/-- A row of the `product_observations` table (`ProductObservation`). -/
structure ObservationRow where
  productId : ℕ
  source : String
  sourceProductId : String
  observedAt : ℚ
  priceUsd : Option ℚ
  views : Option ℤ
  sales : Option ℤ
  orders : Option ℤ
  reviews : Option ℤ
  rating : Option ℚ
  viewsDelta : Option ℤ
  salesDelta : Option ℤ
deriving DecidableEq, Repr

/-- A row of the `supplier_matches` table (`SupplierMatch`). -/
structure SupplierRow where
  productId : ℕ
  supplierSource : String
  supplierUrl : String
  supplierPriceUsd : Option ℚ
  shippingCostUsd : Option ℚ
  estimatedDeliveryDays : Option ℤ
  supplierRating : Option ℚ
  supplierOrders : Option ℤ
  confidenceScore : ℚ
  matchedAt : ℚ
deriving DecidableEq, Repr

/-- A row of the `alerts` table (`Alert`). -/
structure AlertRow where
  productId : ℕ
  alertType : String
  channel : String
  sentAt : ℚ
  compositeScoreAtAlert : ℚ
deriving DecidableEq, Repr

/-- The database state: one list per table, in insertion order. -/
structure DB where
  products : List ProductRow
  observations : List ObservationRow
  suppliers : List SupplierRow
  alerts : List AlertRow
deriving DecidableEq, Repr

/-- Word characters of the regex class `\w` (ASCII model). -/
def isWordChar (c : Char) : Bool := c.isAlphanum || c = '_'

/-- Worker for `collapseSpaces`; the flag records whether the previous
character belonged to a whitespace run already replaced by a space. -/
def collapseGo : Bool → List Char → List Char
  | _, [] => []
  | inRun, c :: cs =>
    if c.isWhitespace then
      if inRun then collapseGo true cs else ' ' :: collapseGo true cs
    else c :: collapseGo false cs

/-- Collapse every whitespace run to a single space, the effect of
`re.sub(r"\s+", " ", name)` in `Database._normalize_name`. -/
def collapseSpaces (l : List Char) : List Char := collapseGo false l

/-- Embeds `Database._normalize_name`: lowercase, strip surrounding
whitespace, drop punctuation (`[^\w\s]`), collapse whitespace runs. -/
def normalizeName (s : String) : String :=
  let lowered := s.toList.map Char.toLower
  let stripped :=
    ((lowered.dropWhile Char.isWhitespace).reverse.dropWhile Char.isWhitespace).reverse
  let noPunct := stripped.filter (fun c => isWordChar c || c.isWhitespace)
  String.mk (collapseSpaces noPunct)

/-- One inner step of the longest-common-subsequence dynamic program:
given the row character `a`, the remaining characters of the second
string, the previous row starting at the diagonal cell, and the cell to
the left, produce the rest of the current row. -/
def lcsGo (a : Char) : List Char → List ℕ → ℕ → List ℕ
  | [], _, _ => []
  | _ :: _, [], _ => []
  | _ :: _, [_], _ => []
  | c :: cs, diag :: up :: rest, left =>
    let cur := if a = c then diag + 1 else max left up
    cur :: lcsGo a cs (up :: rest) cur

/-- Length of a longest common subsequence of two character lists,
computed by the standard row-by-row dynamic program. -/
def lcsLen (s t : List Char) : ℕ :=
  let init : List ℕ := List.replicate (t.length + 1) 0
  (s.foldl (fun row a => 0 :: lcsGo a t row 0) init).getLastD 0

/-- Embeds `rapidfuzz.fuzz.ratio`: the normalized Indel similarity on a
0-100 scale, `100 * (1 - dist/(n₁+n₂))` with `dist = n₁+n₂ - 2*lcs`,
which equals `200*lcs/(n₁+n₂)`; two empty strings give 100. -/
def simRatio (s t : String) : ℚ :=
  let l₁ := s.toList
  let l₂ := t.toList
  if l₁.length + l₂.length = 0 then 100
  else 200 * (lcsLen l₁ l₂ : ℚ) / ((l₁.length : ℚ) + (l₂.length : ℚ))

/-- Embeds `Database._find_matching_product`: exact match on the
normalized name first; otherwise a fuzzy scan over products of the same
category, only when the scraped record has a category. -/
def findMatchingProduct (products : List ProductRow) (scraped : Scraped) :
    Option ProductRow :=
  let key := normalizeName scraped.name
  match products.find? (fun p => p.canonicalName = key) with
  | some p => some p
  | none =>
    match scraped.category with
    | some cat =>
      (products.filter (fun p => p.category = some cat)).find?
        (fun cand => decide (85 < simRatio key cand.canonicalName))
    | none => none

/-- Left fold keeping the element with the largest `observedAt`,
earliest-seen winning ties; models `order_by(observed_at.desc()).first()`. -/
def latestFrom (acc : ObservationRow) : List ObservationRow → ObservationRow
  | [] => acc
  | p :: ps => latestFrom (if acc.observedAt < p.observedAt then p else acc) ps

/-- The rows a new observation's delta query ranges over: same product,
same source, strictly earlier `observed_at`. -/
def priorRows (obs : List ObservationRow) (o : ObservationRow) : List ObservationRow :=
  obs.filter (fun p =>
    p.productId = o.productId ∧ p.source = o.source ∧ p.observedAt < o.observedAt)

/-- The query inside `Database._calculate_deltas`. -/
def findPrev (obs : List ObservationRow) (o : ObservationRow) : Option ObservationRow :=
  match priorRows obs o with
  | [] => none
  | p :: ps => some (latestFrom p ps)

/-- Embeds `Database._calculate_deltas`: when a previous same-source
observation exists, set each delta for which both the new and the
previous reading are non-null, leaving the other fields untouched. -/
def calculateDeltas (obs : List ObservationRow) (o : ObservationRow) : ObservationRow :=
  match findPrev obs o with
  | none => o
  | some prev =>
    { o with
        viewsDelta :=
          match o.views, prev.views with
          | some v, some w => some (v - w)
          | _, _ => o.viewsDelta
        salesDelta :=
          match o.sales, prev.sales with
          | some v, some w => some (v - w)
          | _, _ => o.salesDelta }

/-- The fresh primary key for a new product row. -/
def freshId (products : List ProductRow) : ℕ :=
  (products.map (fun p => p.id)).foldl max 0 + 1

/-- The new `Product` constructed in `Database.upsert_product`. -/
def mkProduct (scraped : Scraped) (now : ℚ) (pid : ℕ) : ProductRow :=
  { id := pid
    canonicalName := normalizeName scraped.name
    category := scraped.category
    firstSeenAt := now
    lastUpdatedAt := now
    compositeScore := 0
    velocityScore := 0
    marginScore := 0
    saturationScore := 0
    isActive := true
    isAlerted := false }

/-- The new `ProductObservation` constructed in `Database.upsert_product`
before deltas are computed. -/
def mkObservation (pid : ℕ) (scraped : Scraped) : ObservationRow :=
  { productId := pid
    source := scraped.source
    sourceProductId := scraped.sourceId
    observedAt := scraped.scrapedAt
    priceUsd := scraped.priceUsd
    views := scraped.views
    sales := scraped.sales
    orders := scraped.orders
    reviews := scraped.reviews
    rating := scraped.rating
    viewsDelta := none
    salesDelta := none }

/-- Update `last_updated_at` of the matched product row. -/
def touchProduct (products : List ProductRow) (pid : ℕ) (now : ℚ) : List ProductRow :=
  products.map (fun p => if p.id = pid then { p with lastUpdatedAt := now } else p)

/-- Embeds `Database.upsert_product`: resolve the product (or create one),
then unconditionally append a new observation with deltas computed
against the rows present at insert time. -/
def upsertProduct (db : DB) (scraped : Scraped) (now : ℚ) : DB :=
  match findMatchingProduct db.products scraped with
  | some p =>
    let obs := calculateDeltas db.observations (mkObservation p.id scraped)
    { db with
        products := touchProduct db.products p.id now
        observations := db.observations ++ [obs] }
  | none =>
    let pid := freshId db.products
    let obs := calculateDeltas db.observations (mkObservation pid scraped)
    { db with
        products := db.products ++ [mkProduct scraped now pid]
        observations := db.observations ++ [obs] }

/-- The argument dictionary of `Database.save_supplier_match`; `none`
models an absent key (`dict.get` then yields the coded default). -/
structure SupplierDict where
  source : Option String
  url : Option String
  minPrice : Option ℚ
  shippingEstimate : Option ℚ
  deliveryDays : Option ℤ
  supplierRating : Option ℚ
  supplierOrders : Option ℤ
  confidence : Option ℚ
deriving DecidableEq, Repr

/-- Embeds `Database.save_supplier_match`: builds a `SupplierMatch` row
and adds it to the session — a plain insert. -/
def saveSupplierMatch (db : DB) (productId : ℕ) (d : SupplierDict) (now : ℚ) : DB :=
  { db with
      suppliers := db.suppliers ++
        [{ productId := productId
           supplierSource := d.source.getD "aliexpress"
           supplierUrl := d.url.getD ""
           supplierPriceUsd := d.minPrice
           shippingCostUsd := d.shippingEstimate
           estimatedDeliveryDays := d.deliveryDays
           supplierRating := d.supplierRating
           supplierOrders := d.supplierOrders
           confidenceScore := d.confidence.getD (1 / 2)
           matchedAt := now }] }

/-- Embeds `Database.get_alert_candidates`: the outer join of products
with alerts keeps a product when the score and active filters pass and
either it has no alert row at all or SOME alert row (not necessarily the
latest) has `sent_at` before the cooldown cutoff. -/
def getAlertCandidates (db : DB) (now minScore cooldownHours : ℚ) : List ProductRow :=
  let cutoff := now - cooldownHours
  db.products.filter (fun p =>
    decide (minScore ≤ p.compositeScore) && p.isActive &&
      (let als := db.alerts.filter (fun a => a.productId = p.id)
       als.isEmpty || als.any (fun a => decide (a.sentAt < cutoff))))

/-!
Concrete database states used by the claims about the storage layer.
All timestamps are whole hours and all monetary values whole dollars so
that the kernel can evaluate them.
-/

/-- The scraped payload of the repository's idempotency test
(`tests/test_database_idempotency.py`), with an integer price. -/
def c1Payload : Scraped :=
  { source := "tiktok_cc"
    sourceId := "abc123"
    name := "Portable Blender"
    category := some "Home"
    priceUsd := some 20
    views := some 1000
    sales := some 25
    orders := none
    reviews := none
    rating := none
    scrapedAt := 10 }

/-- The empty database. -/
def emptyDB : DB := { products := [], observations := [], suppliers := [], alerts := [] }

/-- C1: the claim says re-ingesting an identical (source,
source_product_id, observed_at) record is a silent no-op leaving exactly
one stored observation. `Database.upsert_product` performs no such check
and appends a second identical observation row: ingesting the test
payload twice stores two rows for the tuple, contradicting the claim and
the repository's own test `test_upsert_product_is_idempotent_for_same_source_observation`. -/
theorem upsert_product_duplicates_same_source_observation :
    ((upsertProduct (upsertProduct emptyDB c1Payload 10) c1Payload 11).observations.filter
        (fun o =>
          o.source = "tiktok_cc" && o.sourceProductId = "abc123" &&
            decide (o.observedAt = 10))).length = 2 := by
  decide

/-- The supplier dictionary of the first `save_supplier_match` call in
the repository's uniqueness test. -/
def c8First : SupplierDict :=
  { source := some "aliexpress"
    url := some "https://supplier.test/item"
    minPrice := some 8
    shippingEstimate := some 2
    deliveryDays := none
    supplierRating := none
    supplierOrders := none
    confidence := none }

/-- The supplier dictionary of the second call: same
(product, supplier_source, supplier_url) triple, new price and shipping. -/
def c8Second : SupplierDict :=
  { source := some "aliexpress"
    url := some "https://supplier.test/item"
    minPrice := some 7
    shippingEstimate := some 3
    deliveryDays := none
    supplierRating := none
    supplierOrders := none
    confidence := none }

/-- C8: the claim says at most one `SupplierMatch` row may exist per
(product_id, supplier_source, supplier_url), with re-matching updating
the row in place. `Database.save_supplier_match` always inserts, so two
calls with the identical triple leave two rows — and the first row keeps
its old price, so nothing was updated in place. This contradicts the
claim and the repository's own test
`test_save_supplier_match_updates_existing_unique_record`. -/
theorem save_supplier_match_inserts_duplicate_row :
    (((saveSupplierMatch (saveSupplierMatch emptyDB 1 c8First 5) 1 c8Second 6).suppliers.filter
        (fun s =>
          s.productId = 1 && s.supplierSource = "aliexpress" &&
            s.supplierUrl = "https://supplier.test/item")).length = 2) ∧
      ((saveSupplierMatch (saveSupplierMatch emptyDB 1 c8First 5) 1 c8Second 6).suppliers.map
        (fun s => s.supplierPriceUsd)) = [some 8, some 7] := by
  decide

/-- The product of the C2 counterexample database: active, score 85. -/
def c2Product : ProductRow :=
  { id := 1
    canonicalName := "widget"
    category := none
    firstSeenAt := 0
    lastUpdatedAt := 0
    compositeScore := 85
    velocityScore := 0
    marginScore := 0
    saturationScore := 0
    isActive := true
    isAlerted := true }

/-- A database whose single product has two alerts: the most recent one
sent at hour 99 (inside a 24-hour cooldown at `now = 100`) and an older
one at hour 52 (outside it). -/
def c2DB : DB :=
  { products := [c2Product]
    observations := []
    suppliers := []
    alerts :=
      [{ productId := 1, alertType := "opportunity", channel := "discord"
         sentAt := 99, compositeScoreAtAlert := 85 },
       { productId := 1, alertType := "opportunity", channel := "discord"
         sentAt := 52, compositeScoreAtAlert := 85 }] }

/-- C2: the claim says a product whose MOST RECENT alert lies inside the
cooldown window is excluded even when older alerts fall outside it. The
outer-join filter in `Database.get_alert_candidates` keeps a product as
soon as ANY alert row predates the cutoff: at `now = 100` with
`cooldown_hours = 24` (cutoff 76) the product's latest alert was sent at
hour 99, inside the window, yet the product is returned because of the
older alert at hour 52. -/
theorem alert_candidates_ignore_most_recent_alert :
    getAlertCandidates c2DB 100 70 24 = [c2Product] ∧
      (∀ a ∈ c2DB.alerts, a.sentAt ≤ 99) ∧ (100 - 24 : ℚ) < 99 := by
  have hcut : (100 : ℚ) - 24 = 76 := by norm_num
  refine ⟨?_, by decide, by norm_num⟩
  simp only [getAlertCandidates, hcut]
  decide

/-- An existing product whose canonical name is fuzzy-similar (ratio
800/9 ≈ 88.9) but not equal to the C5 incoming key. -/
def c5Existing : ProductRow :=
  { id := 1
    canonicalName := "aaaaa"
    category := some "Home"
    firstSeenAt := 0
    lastUpdatedAt := 0
    compositeScore := 0
    velocityScore := 0
    marginScore := 0
    saturationScore := 0
    isActive := true
    isAlerted := false }

/-- Database holding only `c5Existing`. -/
def c5DB : DB := { products := [c5Existing], observations := [], suppliers := [], alerts := [] }

/-- An incoming record WITHOUT a category whose normalized name "aaaa"
is fuzzy-similar to the existing "aaaaa" above the 85 threshold. -/
def c5Scraped : Scraped :=
  { source := "tiktok_cc"
    sourceId := "n1"
    name := "aaaa"
    category := none
    priceUsd := none
    views := none
    sales := none
    orders := none
    reviews := none
    rating := none
    scrapedAt := 3 }

/-- C5 counterexample: the claim says that with no category the resolver
still fuzzy-searches across all products and creates a new product only
when no candidate exceeds similarity 85. Here a candidate with
similarity 800/9 > 85 exists, yet `upsert_product` creates a second
product, because `_find_matching_product` only fuzzy-matches when the
scraped record has a category. -/
theorem fuzzy_match_skipped_without_category :
    85 < simRatio (normalizeName c5Scraped.name) c5Existing.canonicalName ∧
      normalizeName c5Scraped.name ≠ c5Existing.canonicalName ∧
      (upsertProduct c5DB c5Scraped 3).products.length = 2 := by
  refine ⟨?_, by decide, by decide⟩
  have h1 : normalizeName c5Scraped.name = "aaaa" := by decide
  have h3 : c5Existing.canonicalName = "aaaaa" := rfl
  rw [h1, h3]
  have h2 : lcsLen "aaaa".toList "aaaaa".toList = 4 := by decide
  have h4 : "aaaa".toList.length = 4 := by decide
  have h5 : "aaaaa".toList.length = 5 := by decide
  simp only [simRatio, h2, h4, h5]
  norm_num

/-- C5 amended: when the incoming record has no category, no fuzzy
matching happens at all — a new product is created whenever no existing
canonical name equals the normalized key exactly. -/
theorem no_category_creates_new_product (db : DB) (scraped : Scraped) (now : ℚ)
    (hcat : scraped.category = none)
    (hexact : ∀ p ∈ db.products, ¬ p.canonicalName = normalizeName scraped.name) :
    (upsertProduct db scraped now).products.length = db.products.length + 1 := by
  have hf : List.find?
      (fun p => decide (p.canonicalName = normalizeName scraped.name)) db.products = none :=
    List.find?_eq_none.mpr (fun p hp => by simpa using hexact p hp)
  have hfind : findMatchingProduct db.products scraped = none := by
    unfold findMatchingProduct
    simp only [hf, hcat]
  unfold upsertProduct
  rw [hfind]
  simp

/-- Witness instantiating `no_category_creates_new_product` at the C5
database: the upsert adds a second product row. -/
theorem no_category_creates_new_product_witness :
    (upsertProduct c5DB c5Scraped 3).products.length = c5DB.products.length + 1 :=
  no_category_creates_new_product c5DB c5Scraped 3 (by decide) (by decide)

/-- The result of `latestFrom` is the accumulator or a list element. -/
theorem latestFrom_mem (acc : ObservationRow) (l : List ObservationRow) :
    latestFrom acc l = acc ∨ latestFrom acc l ∈ l := by
  induction l generalizing acc with
  | nil => left; rfl
  | cons p ps ih =>
    rw [latestFrom]
    rcases ih (if acc.observedAt < p.observedAt then p else acc) with h | h
    · rw [h]
      split
      · right; exact List.mem_cons_self _ _
      · left; rfl
    · right; exact List.mem_cons_of_mem _ h

/-- Every candidate's timestamp is bounded by the one `latestFrom` keeps. -/
theorem le_latestFrom (acc : ObservationRow) (l : List ObservationRow) :
    ∀ r, r = acc ∨ r ∈ l → r.observedAt ≤ (latestFrom acc l).observedAt := by
  induction l generalizing acc with
  | nil =>
    rintro r (rfl | h)
    · exact le_refl _
    · cases h
  | cons p ps ih =>
    rw [latestFrom]
    rintro r (rfl | h)
    · refine le_trans ?_ (ih _ _ (Or.inl rfl))
      split
      · exact le_of_lt (by assumption)
      · exact le_refl _
    · rcases List.mem_cons.mp h with rfl | hmem
      · refine le_trans ?_ (ih _ _ (Or.inl rfl))
        split
        · exact le_refl _
        · exact le_of_not_lt (by assumption)
      · exact ih _ _ (Or.inr hmem)

/-- Membership in `priorRows` unfolded to its defining properties. -/
theorem mem_priorRows {obs : List ObservationRow} {o p : ObservationRow} :
    p ∈ priorRows obs o ↔
      p ∈ obs ∧ p.productId = o.productId ∧ p.source = o.source ∧
        p.observedAt < o.observedAt := by
  simp [priorRows, List.mem_filter]

/-- When `p` is the unique latest prior row, the delta query finds it. -/
theorem findPrev_eq_of_unique_max (obs : List ObservationRow) (o p : ObservationRow)
    (hmem : p ∈ obs) (hpid : p.productId = o.productId) (hsrc : p.source = o.source)
    (hlt : p.observedAt < o.observedAt)
    (hmax : ∀ q ∈ obs, q.productId = o.productId → q.source = o.source →
        q.observedAt < o.observedAt → q = p ∨ q.observedAt < p.observedAt) :
    findPrev obs o = some p := by
  have hp : p ∈ priorRows obs o := mem_priorRows.mpr ⟨hmem, hpid, hsrc, hlt⟩
  unfold findPrev
  cases hpr : priorRows obs o with
  | nil => rw [hpr] at hp; cases hp
  | cons q qs =>
    have hm : latestFrom q qs = q ∨ latestFrom q qs ∈ qs := latestFrom_mem q qs
    have hmmem : latestFrom q qs ∈ priorRows obs o := by
      rw [hpr]
      rcases hm with h | h
      · rw [h]; exact List.mem_cons_self _ _
      · exact List.mem_cons_of_mem _ h
    have hprops := mem_priorRows.mp hmmem
    have hple : p.observedAt ≤ (latestFrom q qs).observedAt := by
      apply le_latestFrom q qs p
      rw [hpr] at hp
      rcases List.mem_cons.mp hp with h | h
      · exact Or.inl h
      · exact Or.inr h
    rcases hmax (latestFrom q qs) hprops.1 hprops.2.1 hprops.2.2.1 hprops.2.2.2 with h | h
    · exact congrArg some h
    · exact absurd hple (not_le_of_lt h)

/-- The delta the spec prescribes: the difference when both readings are
present, null otherwise. -/
def deltaOf (a b : Option ℤ) : Option ℤ :=
  match a, b with
  | some x, some y => some (x - y)
  | _, _ => none

/-- Fields other than the deltas are untouched by `calculateDeltas`. -/
theorem calculateDeltas_preserves (obs : List ObservationRow) (o : ObservationRow) :
    (calculateDeltas obs o).productId = o.productId ∧
      (calculateDeltas obs o).source = o.source ∧
      (calculateDeltas obs o).observedAt = o.observedAt ∧
      (calculateDeltas obs o).views = o.views ∧
      (calculateDeltas obs o).sales = o.sales := by
  unfold calculateDeltas
  cases findPrev obs o <;> simp

/-- The upsert always appends exactly the delta-completed observation. -/
theorem upsert_appends_observation (db : DB) (scraped : Scraped) (now : ℚ) :
    ∃ pid, (upsertProduct db scraped now).observations =
      db.observations ++ [calculateDeltas db.observations (mkObservation pid scraped)] := by
  unfold upsertProduct
  cases findMatchingProduct db.products scraped with
  | none => exact ⟨freshId db.products, rfl⟩
  | some p => exact ⟨p.id, rfl⟩

/-- Unfolding `calculateDeltas` when the delta query finds a row. -/
theorem calculateDeltas_of_some {obs : List ObservationRow} {base p : ObservationRow}
    (h : findPrev obs base = some p) :
    (calculateDeltas obs base).viewsDelta =
        (match base.views, p.views with
          | some v, some w => some (v - w)
          | _, _ => base.viewsDelta) ∧
      (calculateDeltas obs base).salesDelta =
        (match base.sales, p.sales with
          | some v, some w => some (v - w)
          | _, _ => base.salesDelta) := by
  unfold calculateDeltas
  rw [h]
  exact ⟨rfl, rfl⟩

/-- Unfolding `calculateDeltas` when the delta query finds nothing. -/
theorem calculateDeltas_of_none {obs : List ObservationRow} {base : ObservationRow}
    (h : findPrev obs base = none) : calculateDeltas obs base = base := by
  unfold calculateDeltas
  rw [h]

/-- C3: for every observation inserted by `upsert_product`, each delta
equals new minus previous against the most recent prior observation of
the SAME product and SAME source with strictly smaller `observed_at`
(both readings non-null), and stays null when either side is null or no
such prior row exists; a row of another source is never consulted, since
the prior-row property requires equal sources. -/
theorem upsert_observation_deltas (db : DB) (scraped : Scraped) (now : ℚ)
    (o : ObservationRow)
    (ho : (upsertProduct db scraped now).observations = db.observations ++ [o]) :
    (∀ p ∈ db.observations, p.productId = o.productId → p.source = o.source →
        p.observedAt < o.observedAt →
        (∀ q ∈ db.observations, q.productId = o.productId → q.source = o.source →
            q.observedAt < o.observedAt → q = p ∨ q.observedAt < p.observedAt) →
        o.viewsDelta = deltaOf o.views p.views ∧ o.salesDelta = deltaOf o.sales p.sales) ∧
      ((∀ p ∈ db.observations, ¬(p.productId = o.productId ∧ p.source = o.source ∧
          p.observedAt < o.observedAt)) →
        o.viewsDelta = none ∧ o.salesDelta = none) := by
  obtain ⟨pid, hp⟩ := upsert_appends_observation db scraped now
  have hoeq : o = calculateDeltas db.observations (mkObservation pid scraped) := by
    have h2 := ho.symm.trans hp
    simpa using List.append_cancel_left h2
  subst hoeq
  obtain ⟨h1, h2, h3, h4, h5⟩ := calculateDeltas_preserves db.observations (mkObservation pid scraped)
  constructor
  · intro p hpmem hpid hsrc hlt hmax
    rw [h1] at hpid
    rw [h2] at hsrc
    rw [h3] at hlt
    have hmax' : ∀ q ∈ db.observations, q.productId = (mkObservation pid scraped).productId →
        q.source = (mkObservation pid scraped).source →
        q.observedAt < (mkObservation pid scraped).observedAt →
        q = p ∨ q.observedAt < p.observedAt := by
      intro q hq hq1 hq2 hq3
      exact hmax q hq (by rw [h1]; exact hq1) (by rw [h2]; exact hq2) (by rw [h3]; exact hq3)
    have hfp := findPrev_eq_of_unique_max db.observations (mkObservation pid scraped) p
      hpmem hpid hsrc hlt hmax'
    obtain ⟨hv, hs⟩ := calculateDeltas_of_some hfp
    rw [h4, h5, hv, hs]
    constructor
    · cases scraped.views <;> cases p.views <;> simp [deltaOf, mkObservation]
    · cases scraped.sales <;> cases p.sales <;> simp [deltaOf, mkObservation]
  · intro hnone
    have hempty : priorRows db.observations (mkObservation pid scraped) = [] := by
      cases hpr : priorRows db.observations (mkObservation pid scraped) with
      | nil => rfl
      | cons q qs =>
        exfalso
        have hq : q ∈ priorRows db.observations (mkObservation pid scraped) := by
          rw [hpr]; exact List.mem_cons_self _ _
        obtain ⟨hq0, hq1, hq2, hq3⟩ := mem_priorRows.mp hq
        exact hnone q hq0 ⟨by rw [h1]; exact hq1, by rw [h2]; exact hq2, by rw [h3]; exact hq3⟩
    have hfp : findPrev db.observations (mkObservation pid scraped) = none := by
      unfold findPrev
      rw [hempty]
    rw [calculateDeltas_of_none hfp]
    exact ⟨rfl, rfl⟩

/-- The product owning the C3 witness observations. -/
def c3Product : ProductRow :=
  { id := 1
    canonicalName := "gizmo"
    category := none
    firstSeenAt := 0
    lastUpdatedAt := 0
    compositeScore := 0
    velocityScore := 0
    marginScore := 0
    saturationScore := 0
    isActive := true
    isAlerted := false }

/-- The earlier stored observation: views 1000, sales null, hour 1. -/
def c3Prior : ObservationRow :=
  { productId := 1
    source := "tiktok_cc"
    sourceProductId := "z1"
    observedAt := 1
    priceUsd := none
    views := some 1000
    sales := none
    orders := none
    reviews := none
    rating := none
    viewsDelta := none
    salesDelta := none }

/-- Database with one product and one prior observation. -/
def c3DB : DB :=
  { products := [c3Product], observations := [c3Prior], suppliers := [], alerts := [] }

/-- The later scraped record: same source, views 1500, hour 2. -/
def c3Scraped : Scraped :=
  { source := "tiktok_cc"
    sourceId := "z1"
    name := "Gizmo"
    category := none
    priceUsd := none
    views := some 1500
    sales := none
    orders := none
    reviews := none
    rating := none
    scrapedAt := 2 }

/-- The observation row the upsert appends: views_delta 1500-1000=500,
sales_delta null because the prior sales reading is null. -/
def c3NewObs : ObservationRow :=
  { productId := 1
    source := "tiktok_cc"
    sourceProductId := "z1"
    observedAt := 2
    priceUsd := none
    views := some 1500
    sales := none
    orders := none
    reviews := none
    rating := none
    viewsDelta := some 500
    salesDelta := none }

/-- Witness for C3: instantiates `upsert_observation_deltas` on the
concrete two-observation history, every hypothesis discharged by
evaluation. -/
theorem upsert_observation_deltas_witness :
    (upsertProduct c3DB c3Scraped 2).observations = c3DB.observations ++ [c3NewObs] ∧
      c3NewObs.viewsDelta = deltaOf c3NewObs.views c3Prior.views ∧
      c3NewObs.salesDelta = deltaOf c3NewObs.sales c3Prior.sales := by
  have ho : (upsertProduct c3DB c3Scraped 2).observations = c3DB.observations ++ [c3NewObs] := by
    decide
  have h := (upsert_observation_deltas c3DB c3Scraped 2 c3NewObs ho).1 c3Prior
    (by decide) (by decide) (by decide) (by decide) (by decide)
  exact ⟨ho, h.1, h.2⟩

/-!
Embedding of the scoring engines: `src/scoring/margin.py`,
`src/scoring/saturation.py`, `src/scoring/velocity.py` and
`src/scoring/composite.py`. Monetary amounts, rates and scores are
rationals; the velocity scorer's compound growth rate takes a real
power, so its results live in `ℝ`.
-/

/-- Python's `round(x, n)` (round half to even at the n-th decimal),
on rationals. -/
def roundHalfEvenQ (q : ℚ) : ℤ :=
  let f := ⌊q⌋
  let r := q - (f : ℚ)
  if r < 1 / 2 then f
  else if 1 / 2 < r then f + 1
  else if f % 2 = 0 then f else f + 1

/-- Decimal rounding on rationals, half to even. -/
def pyRoundQ (q : ℚ) (n : ℕ) : ℚ := ((roundHalfEvenQ (q * 10 ^ n) : ℚ)) / 10 ^ n

/-- Python's `int(...)` on a float: truncation toward zero. -/
def pyInt (q : ℚ) : ℤ := if 0 ≤ q then ⌊q⌋ else ⌈q⌉

/-- The configurable fee rates of `MarginScorer` (`TIKTOK_SHOP_FEE`,
`PAYMENT_PROCESSING`, `ESTIMATED_AD_COST_PERCENT`). -/
structure MarginParams where
  platformFee : ℚ
  paymentProcessing : ℚ
  estimatedAdCost : ℚ
deriving DecidableEq, Repr

/-- The default fee rates: 8 percent, 2.9 percent, 15 percent. -/
def defaultMarginParams : MarginParams :=
  { platformFee := 8 / 100, paymentProcessing := 29 / 1000, estimatedAdCost := 15 / 100 }

/-- The fixed payment fee `PAYMENT_FIXED = 0.30`, not configurable. -/
def paymentFixedFee : ℚ := 3 / 10

/-- Gross margin in dollars: price minus supplier cost and shipping. -/
def grossMargin (selling supplier shipping : ℚ) : ℚ := selling - (supplier + shipping)

/-- Net margin in dollars after platform, payment and assumed ad fees,
exactly as `MarginScorer.calculate` computes it. -/
def netMargin (mp : MarginParams) (selling supplier shipping : ℚ) : ℚ :=
  grossMargin selling supplier shipping - selling * mp.platformFee -
    (selling * mp.paymentProcessing + paymentFixedFee) - selling * mp.estimatedAdCost

/-- The metrics dictionary built by `MarginScorer.calculate`; every
entry is stored rounded, as in the source. -/
structure MarginMetrics where
  grossMarginPercent : ℚ
  grossMarginUsd : ℚ
  netMarginPercent : ℚ
  netMarginUsd : ℚ
  breakEvenCpa : ℚ
  platformFees : ℚ
  paymentFees : ℚ
  estimatedAdCostUsd : ℚ
deriving DecidableEq, Repr

/-- Result triple of a margin scoring run; `metrics = none` models the
empty metrics dictionary of the degenerate branches. -/
structure MarginResult where
  score : ℚ
  metrics : Option MarginMetrics
  signals : List String
deriving DecidableEq, Repr

/-- Embeds `MarginScorer._composite_score` (reads the rounded metrics). -/
def marginCompositeScore (m : MarginMetrics) : ℚ :=
  let net := m.netMarginPercent
  if net < 0 then max 0 (20 + net * 100)
  else
    let base := 20 + min 80 (net * 133)
    let boosted := if 15 < m.netMarginUsd then base + 5 else base
    min 100 boosted

/-- Embeds `MarginScorer.calculate`. -/
def marginCalculate (mp : MarginParams) (sellingPrice supplierPrice shippingCost : ℚ) :
    MarginResult :=
  if sellingPrice ≤ 0 then { score := 0, metrics := none, signals := ["no_price_data"] }
  else
    let grossUsd := grossMargin sellingPrice supplierPrice shippingCost
    let grossPercent := grossUsd / sellingPrice
    let platformFees := sellingPrice * mp.platformFee
    let paymentFees := sellingPrice * mp.paymentProcessing + paymentFixedFee
    let adCost := sellingPrice * mp.estimatedAdCost
    let netUsd := netMargin mp sellingPrice supplierPrice shippingCost
    let netPercent := if 0 < sellingPrice then netUsd / sellingPrice else 0
    let breakEven := grossUsd - platformFees - paymentFees
    let metrics : MarginMetrics :=
      { grossMarginPercent := pyRoundQ grossPercent 3
        grossMarginUsd := pyRoundQ grossUsd 2
        netMarginPercent := pyRoundQ netPercent 3
        netMarginUsd := pyRoundQ netUsd 2
        breakEvenCpa := pyRoundQ breakEven 2
        platformFees := pyRoundQ platformFees 2
        paymentFees := pyRoundQ paymentFees 2
        estimatedAdCostUsd := pyRoundQ adCost 2 }
    let signals :=
      (if 1 / 2 ≤ grossPercent then ["high_gross_margin"] else []) ++
        (if 1 / 5 ≤ netPercent then ["healthy_net_margin"] else []) ++
        (if 10 ≤ breakEven then ["room_for_ads"] else []) ++
        (if netPercent < 1 / 10 then ["tight_margins"] else []) ++
        (if netUsd < 0 then ["unprofitable"] else [])
    { score := pyRoundQ (marginCompositeScore metrics) 1
      metrics := some metrics
      signals := signals }

/-- The configurable thresholds of `SaturationScorer`. -/
structure SaturationParams where
  largeCreatorFollowers : ℤ
  earlyStageCreators : ℤ
  earlyStageDays : ℤ
deriving DecidableEq, Repr

/-- Default saturation thresholds: 100000 followers, 5 creators, 3 days. -/
def defaultSaturationParams : SaturationParams :=
  { largeCreatorFollowers := 100000, earlyStageCreators := 5, earlyStageDays := 3 }

/-- The metrics dictionary of `SaturationScorer.calculate`. -/
structure SatMetrics where
  creatorCount : ℤ
  daysActive : ℤ
  adoptionRate : Option ℚ
  largeCreatorRatio : Option ℚ
  largeCreatorCount : Option ℕ
deriving DecidableEq, Repr

/-- Result triple of a saturation scoring run. -/
structure SatResult where
  score : ℚ
  metrics : SatMetrics
  signals : List String
deriving DecidableEq, Repr

/-- Embeds `SaturationScorer._composite_score`. -/
def satCompositeScore (m : SatMetrics) : ℚ :=
  let base : ℚ :=
    if m.creatorCount ≤ 5 then 90
    else if m.creatorCount ≤ 10 then 75
    else if m.creatorCount ≤ 25 then 60
    else if m.creatorCount ≤ 50 then 40
    else if m.creatorCount ≤ 100 then 25
    else 10
  let timeBonus : ℚ :=
    if m.daysActive ≤ 2 then 10
    else if m.daysActive ≤ 5 then 5
    else if m.daysActive ≤ 14 then 0
    else -10
  let largePenalty := m.largeCreatorRatio.getD 0 * 15
  max 0 (min 100 (base + timeBonus - largePenalty))

/-- Embeds `SaturationScorer.calculate`; `creatorData` is the optional
list of follower counts (`c.get("followers", 0)` of each entry). -/
def saturationCalculate (sp : SaturationParams) (creatorCount daysSinceFirstSeen : ℤ)
    (creatorData : Option (List ℤ)) : SatResult :=
  let adoption : Option ℚ :=
    if 0 < daysSinceFirstSeen then some ((creatorCount : ℚ) / (daysSinceFirstSeen : ℚ))
    else none
  let adoptionSignals :=
    match adoption with
    | some rate =>
      if 10 < rate then ["viral_adoption"]
      else if 5 < rate then ["rapid_adoption"]
      else if 2 < rate then ["growing_adoption"]
      else ["slow_adoption"]
    | none => []
  let creatorInfo : Option (ℚ × ℕ) :=
    match creatorData with
    | some l =>
      if l.isEmpty then none
      else
        let large := l.filter (fun f => decide (sp.largeCreatorFollowers < f))
        some ((large.length : ℚ) / (l.length : ℚ), large.length)
    | none => none
  let largeSignals :=
    match creatorInfo with
    | some ri => if 1 / 2 < ri.1 then ["big_creator_dominated"] else []
    | none => []
  let stageSignal :=
    if creatorCount < sp.earlyStageCreators ∧ daysSinceFirstSeen < sp.earlyStageDays then
      ["very_early"]
    else if creatorCount < 20 ∧ daysSinceFirstSeen < 7 then ["early_stage"]
    else if creatorCount < 50 then ["growth_stage"]
    else ["saturated"]
  let metrics : SatMetrics :=
    { creatorCount := creatorCount
      daysActive := daysSinceFirstSeen
      adoptionRate := adoption.map (fun r => pyRoundQ r 2)
      largeCreatorRatio := creatorInfo.map (fun ri => pyRoundQ ri.1 2)
      largeCreatorCount := creatorInfo.map (fun ri => ri.2) }
  { score := pyRoundQ (satCompositeScore metrics) 1
    metrics := metrics
    signals := adoptionSignals ++ largeSignals ++ stageSignal }

/-- Population mean of a list of integer readings, as `numpy.mean`. -/
def ratMean (l : List ℤ) : ℚ := (l.map (fun v => (v : ℚ))).sum / (l.length : ℚ)

/-- Population variance of a list of integer readings, as `numpy.var`
with its default `ddof = 0`. -/
def ratVar (l : List ℤ) : ℚ :=
  (l.map (fun v => ((v : ℚ) - ratMean l) ^ 2)).sum / (l.length : ℚ)

/-- Embeds `CompositeScorer._estimate_creator_count`: 5 when no non-null
view reading exists; `min(100, int(5 + (variance/mean)*10))` when more
than 5 view readings exist and their mean is positive; otherwise the
total number of observations. -/
def estimateCreatorCount (observations : List ObservationRow) : ℤ :=
  let viewCounts := observations.filterMap (fun o => o.views)
  if viewCounts.isEmpty then 5
  else if 5 < viewCounts.length then
    let variance := ratVar viewCounts
    let mean := ratMean viewCounts
    if 0 < mean then min 100 (pyInt (5 + variance / mean * 10))
    else (observations.length : ℤ)
  else (observations.length : ℤ)

/-- The truthiness test `supplier_data and supplier_data.get("min_price")`
guarding the margin branch of `CompositeScorer.score_product`: a
dictionary is present and its min_price is non-null and non-zero. -/
def supplierHasPrice : Option SupplierDict → Bool
  | some sd =>
    match sd.minPrice with
    | some mp => decide (mp ≠ 0)
    | none => false
  | none => false

/-- Embeds `CompositeScorer._calculate_confidence`. -/
def calcConfidence (observations : List ObservationRow) (supplier : Option SupplierDict) : ℚ :=
  let c₁ := 1 / 2 + min (1 / 5) ((observations.length : ℚ) * (1 / 50))
  let sources := (observations.map (fun o => o.source)).dedup
  let c₂ := c₁ + min (3 / 20) ((sources.length : ℚ) * (1 / 20))
  let c₃ := if supplierHasPrice supplier then c₂ + 3 / 20 else c₂
  min 1 c₃

/-- Embeds `CompositeScorer._get_latest_price`: the price of the most
recent observation carrying a positive non-null price, else 0. -/
def getLatestPrice (observations : List ObservationRow) : ℚ :=
  let priced := observations.filter
    (fun o => o.priceUsd.isSome && decide (0 < o.priceUsd.getD 0))
  match priced with
  | [] => 0
  | p :: ps => (latestFrom p ps).priceUsd.getD 0

/-- The scoring weights (`CompositeScorer.WEIGHTS`). -/
structure Weights where
  velocity : ℚ
  margin : ℚ
  saturation : ℚ
deriving DecidableEq, Repr

/-- The default weights: velocity 0.35, margin 0.30, saturation 0.35. -/
def defaultWeights : Weights :=
  { velocity := 35 / 100, margin := 30 / 100, saturation := 35 / 100 }

/-- The `scoring` section of the configuration dictionary; `none` models
an absent `weights` key. -/
structure ScoringDict where
  weights : Option Weights
deriving DecidableEq, Repr

/-- The configuration dictionary handed to `CompositeScorer.__init__`;
`none` models an absent `scoring` key. -/
structure ConfigDict where
  scoring : Option ScoringDict
deriving DecidableEq, Repr

/-- Embeds the weight selection of `CompositeScorer.__init__`: the
configured weights when present, the class default otherwise — the
constructor performs no further validation and cannot fail. -/
def compositeInitWeights : Option ConfigDict → Weights
  | none => defaultWeights
  | some c =>
    match c.scoring with
    | none => defaultWeights
    | some s => s.weights.getD defaultWeights

open Classical in
/-- Embeds `CompositeScorer._classify`: signal overrides first, then the
five-tier step function. -/
noncomputable def classify (score : ℝ) (signals : List String) : String :=
  if "unprofitable" ∈ signals then "pass"
  else if "saturated" ∈ signals ∧ score < 60 then "too_late"
  else if 80 ≤ score then "strong_buy"
  else if 65 ≤ score then "buy"
  else if 50 ≤ score then "watch"
  else if 35 ≤ score then "pass"
  else "too_late"

/-- The metrics dictionary of `VelocityScorer.calculate` (each key
optional, present only when computed; stored rounded as in the source). -/
structure VelocityMetrics where
  viewsGrowthRate : Option ℝ
  salesGrowthRate : Option ℝ
  acceleration : Option ℝ
  hoursOfData : Option ℚ

/-- Result triple of a velocity scoring run. -/
structure VelocityResult where
  score : ℝ
  metrics : VelocityMetrics
  signals : List String

/-- Stable insertion into a time-sorted list (later readings last). -/
def insertByTime (o : ObservationRow) : List ObservationRow → List ObservationRow
  | [] => [o]
  | p :: ps =>
    if p.observedAt ≤ o.observedAt then p :: insertByTime o ps
    else o :: p :: ps

/-- Embeds `sorted(observations, key=observed_at)` (a stable sort). -/
def sortByTime (l : List ObservationRow) : List ObservationRow :=
  l.foldl (fun acc o => insertByTime o acc) []

open Classical in
/-- Embeds `VelocityScorer._calculate_growth_rate`: keep the positive
readings, need at least two, and return the compound per-step rate
`(last/first)^(1/(n-1)) - 1` (the dead `first = 0` guard is kept). -/
noncomputable def growthRate (values : List ℤ) : Option ℝ :=
  let vs := values.filter (fun v => decide (0 < v))
  match vs with
  | [] => none
  | [_] => none
  | v₀ :: rest =>
    if v₀ = 0 then none
    else some ((((rest.getLastD v₀ : ℤ) : ℝ) / ((v₀ : ℤ) : ℝ)) ^ ((1 : ℝ) / (rest.length : ℝ)) - 1)

/-- The truthy views filter `[o.views for o in half if o.views]` used by
the acceleration computation (drops null AND zero readings). -/
def truthyViews (o : ObservationRow) : Option ℤ :=
  match o.views with
  | some v => if v = 0 then none else some v
  | none => none

/-- Embeds `VelocityScorer._calculate_acceleration`: split at the
midpoint and subtract the two view growth rates (`or 0.0` fallbacks). -/
noncomputable def velocityAcceleration (recent : List ObservationRow) : ℝ :=
  let mid := recent.length / 2
  let firstGrowth := (growthRate ((recent.take mid).filterMap truthyViews)).getD 0
  let secondGrowth := (growthRate ((recent.drop mid).filterMap truthyViews)).getD 0
  secondGrowth - firstGrowth

open Classical in
/-- Python's `round(x, n)` on a real value, half to even. -/
noncomputable def roundHalfEvenR (x : ℝ) : ℤ :=
  let f := ⌊x⌋
  let r := x - (f : ℝ)
  if r < 1 / 2 then f
  else if 1 / 2 < r then f + 1
  else if f % 2 = 0 then f else f + 1

/-- Decimal rounding on reals, half to even. -/
noncomputable def pyRoundR (x : ℝ) (n : ℕ) : ℝ :=
  ((roundHalfEvenR (x * 10 ^ n) : ℤ) : ℝ) / 10 ^ n

/-- Embeds `VelocityScorer._composite_score` (reads the rounded
metrics, absent entries defaulting to 0). -/
noncomputable def velocityCompositeScore (m : VelocityMetrics) : ℝ :=
  let s₁ := (50 : ℝ) + min 30 (max (-20) (m.viewsGrowthRate.getD 0 * 60))
  let s₂ := s₁ + min 25 (max (-15) (m.salesGrowthRate.getD 0 * 50))
  let s₃ := s₂ + min 20 (max (-10) (m.acceleration.getD 0 * 100))
  max 0 (min 100 s₃)

open Classical in
/-- Embeds `VelocityScorer.calculate` with lookback window
`lookbackHours` ending at `now` (the scorer's default is 72). -/
noncomputable def velocityCalculate (lookbackHours now : ℚ)
    (observations : List ObservationRow) : VelocityResult :=
  if observations.length < 2 then
    { score := 0
      metrics :=
        { viewsGrowthRate := none, salesGrowthRate := none
          acceleration := none, hoursOfData := none }
      signals := ["insufficient_data"] }
  else
    let obs := sortByTime observations
    let cutoff := now - lookbackHours
    let windowed := obs.filter (fun o => decide (cutoff ≤ o.observedAt))
    let recent := if windowed.length < 2 then obs.drop (obs.length - 2) else windowed
    let viewsGrowth := growthRate (recent.filterMap (fun o => o.views))
    let salesGrowth := growthRate (recent.filterMap (fun o => o.sales))
    let accel : Option ℝ :=
      if 4 ≤ recent.length then some (velocityAcceleration recent) else none
    let hoursOfData : Option ℚ :=
      match recent with
      | [] => none
      | r₀ :: rs => some (pyRoundQ ((rs.getLastD r₀).observedAt - r₀.observedAt) 1)
    let metrics : VelocityMetrics :=
      { viewsGrowthRate := viewsGrowth.map (fun g => pyRoundR g 4)
        salesGrowthRate := salesGrowth.map (fun g => pyRoundR g 4)
        acceleration := accel.map (fun a => pyRoundR a 4)
        hoursOfData := hoursOfData }
    let viewSignals :=
      match viewsGrowth with
      | some g =>
        if 1 / 2 < g then ["rapid_view_growth"]
        else if g < -(1 / 10) then ["declining_views"]
        else []
      | none => []
    let salesSignals :=
      match salesGrowth with
      | some g => if 3 / 10 < g then ["strong_sales_velocity"] else []
      | none => []
    let accelSignals :=
      match accel with
      | some a =>
        if 1 / 10 < a then ["accelerating"]
        else if a < -(1 / 10) then ["decelerating"]
        else []
      | none => []
    { score := pyRoundR (velocityCompositeScore metrics) 1
      metrics := metrics
      signals := viewSignals ++ salesSignals ++ accelSignals }

/-- The per-dimension metric maps in an `OpportunityScore.details`. -/
structure OpportunityDetails where
  velocity : VelocityMetrics
  margin : Option MarginMetrics
  saturation : SatMetrics

/-- Embeds the `OpportunityScore` dataclass of `src/scoring/composite.py`. -/
structure OpportunityScore where
  compositeScore : ℝ
  velocityScore : ℝ
  marginScore : ℚ
  saturationScore : ℚ
  confidence : ℚ
  signals : List String
  recommendation : String
  details : OpportunityDetails

/-- Embeds `CompositeScorer.score_product`. The supplier dictionary's
`shipping_estimate` is read with `.get(..., 0)`; a present-but-null
value would raise a `TypeError` in the Python addition, so the model is
stated for the non-null case (absent keys map to the 0 default). -/
noncomputable def scoreProduct (w : Weights) (mp : MarginParams) (sp : SaturationParams)
    (product : ProductRow) (observations : List ObservationRow)
    (supplier : Option SupplierDict) (now : ℚ) : OpportunityScore :=
  let velocityResult := velocityCalculate 72 now observations
  let marginResult : MarginResult :=
    if supplierHasPrice supplier then
      let sellingPrice := getLatestPrice observations
      if 0 < sellingPrice then
        marginCalculate mp sellingPrice ((supplier.bind (fun sd => sd.minPrice)).getD 0)
          ((supplier.bind (fun sd => sd.shippingEstimate)).getD 0)
      else { score := 50, metrics := none, signals := ["no_price_data"] }
    else { score := 50, metrics := none, signals := ["no_supplier_data"] }
  let creatorCount := estimateCreatorCount observations
  let daysActive : ℤ := ⌊(now - product.firstSeenAt) / 24⌋
  let saturationResult := saturationCalculate sp creatorCount (max 1 daysActive) none
  let allSignals := velocityResult.signals ++ marginResult.signals ++ saturationResult.signals
  let composite : ℝ := velocityResult.score * ((w.velocity : ℚ) : ℝ) +
    ((marginResult.score : ℚ) : ℝ) * ((w.margin : ℚ) : ℝ) +
    ((saturationResult.score : ℚ) : ℝ) * ((w.saturation : ℚ) : ℝ)
  { compositeScore := pyRoundR composite 1
    velocityScore := pyRoundR velocityResult.score 1
    marginScore := pyRoundQ marginResult.score 1
    saturationScore := pyRoundQ saturationResult.score 1
    confidence := pyRoundQ (calcConfidence observations supplier) 2
    signals := allSignals
    recommendation := classify composite allSignals
    details :=
      { velocity := velocityResult.metrics
        margin := marginResult.metrics
        saturation := saturationResult.metrics } }

/-- A weights configuration summing to 9, not 1. -/
def c7BadWeights : Weights := { velocity := 2, margin := 3, saturation := 4 }

/-- A configuration dictionary carrying the bad weights. -/
def c7Config : ConfigDict := { scoring := some { weights := some c7BadWeights } }

/-- C7 counterexample: the claim says a weights configuration that does
not sum to 1.0 makes the composite scorer constructor fail fast with a
ConfigurationError. `CompositeScorer.__init__` performs no validation
whatsoever (and the codebase defines no ConfigurationError): the bad
weights are accepted unchanged and construction succeeds. -/
theorem invalid_weights_accepted_at_construction :
    compositeInitWeights (some c7Config) = c7BadWeights ∧
      c7BadWeights.velocity + c7BadWeights.margin + c7BadWeights.saturation ≠ 1 := by
  refine ⟨rfl, ?_⟩
  show (2 : ℚ) + 3 + 4 ≠ 1
  norm_num

/-- C7 amended: construction never validates the weights — any
configured weights mapping, summing to 1 or not, is installed verbatim
(and the class default is used when the key is absent). -/
theorem composite_init_accepts_any_weights (w : Weights) :
    compositeInitWeights (some { scoring := some { weights := some w } }) = w := rfl

/-- C10: the `creator_count` handed to the saturation scorer inside
`score_product` is derived solely from the observations' view counts by
`_estimate_creator_count`: 5 when no observation has a non-null views
value; `min(100, int(5 + 10*(variance/mean)))` when more than 5 view
readings exist with positive mean; otherwise the total number of
observations. It is visible in the result as the saturation metrics'
`creator_count` entry. -/
theorem creator_count_derived_from_views (w : Weights) (mp : MarginParams)
    (sp : SaturationParams) (product : ProductRow) (observations : List ObservationRow)
    (supplier : Option SupplierDict) (now : ℚ) :
    (scoreProduct w mp sp product observations supplier now).details.saturation.creatorCount =
      (let viewCounts := observations.filterMap (fun o => o.views)
       if viewCounts.isEmpty then 5
       else if 5 < viewCounts.length ∧ 0 < ratMean viewCounts then
         min 100 (pyInt (5 + 10 * (ratVar viewCounts / ratMean viewCounts)))
       else (observations.length : ℤ)) := by
  show estimateCreatorCount observations = _
  unfold estimateCreatorCount
  by_cases h1 : (observations.filterMap (fun o => o.views)).isEmpty
  · simp [h1]
  · by_cases h2 : 5 < (observations.filterMap (fun o => o.views)).length
    · by_cases h3 : 0 < ratMean (observations.filterMap (fun o => o.views))
      · simp only [h1, h2, h3, if_false, if_true, Bool.false_eq_true, and_self, ite_true,
          ite_false, if_neg, if_pos]
        rw [mul_comm (ratVar (observations.filterMap (fun o => o.views)) /
          ratMean (observations.filterMap (fun o => o.views))) 10]
      · simp [h1, h2, h3]
    · simp [h1, h2]

/-- The first override in `_classify`: the unprofitable signal forces a
"pass" recommendation regardless of the score. -/
theorem classify_of_unprofitable (score : ℝ) (signals : List String)
    (h : "unprofitable" ∈ signals) : classify score signals = "pass" := by
  unfold classify
  rw [if_pos h]

/-- Whenever the margin scorer actually runs on a positive selling price
and computes a negative net margin, its signals include "unprofitable". -/
theorem marginCalculate_unprofitable (mp : MarginParams) (selling supplier shipping : ℚ)
    (hsell : 0 < selling) (hnet : netMargin mp selling supplier shipping < 0) :
    "unprofitable" ∈ (marginCalculate mp selling supplier shipping).signals := by
  unfold marginCalculate
  rw [if_neg (not_le_of_lt hsell)]
  simp [hnet]

/-- C4: when supplier data with a non-null positive min_price is present,
the latest observed selling price is positive, and the computed
net_margin_usd is negative, `score_product` emits the "unprofitable"
signal and `_classify` returns recommendation "pass" regardless of the
composite score. -/
theorem unprofitable_margin_forces_pass (w : Weights) (mp : MarginParams)
    (sp : SaturationParams) (product : ProductRow) (observations : List ObservationRow)
    (sd : SupplierDict) (minPrice shipping : ℚ) (now : ℚ)
    (hmin : sd.minPrice = some minPrice) (hminPos : 0 < minPrice)
    (hship : sd.shippingEstimate = some shipping)
    (hsell : 0 < getLatestPrice observations)
    (hnet : netMargin mp (getLatestPrice observations) minPrice shipping < 0) :
    "unprofitable" ∈ (scoreProduct w mp sp product observations (some sd) now).signals ∧
      (scoreProduct w mp sp product observations (some sd) now).recommendation = "pass" := by
  have hhp : supplierHasPrice (some sd) = true := by
    simp [supplierHasPrice, hmin, ne_of_gt hminPos]
  have hbind1 : ((some sd).bind (fun x => x.minPrice)).getD 0 = minPrice := by
    simp [hmin]
  have hbind2 : ((some sd).bind (fun x => x.shippingEstimate)).getD 0 = shipping := by
    simp [hship]
  have hm := marginCalculate_unprofitable mp (getLatestPrice observations) minPrice shipping
    hsell hnet
  constructor
  · simp only [scoreProduct, hhp, hbind1, hbind2, eq_self_iff_true, ite_true, if_pos hsell]
    exact List.mem_append_left _ (List.mem_append_right _ hm)
  · simp only [scoreProduct, hhp, hbind1, hbind2, eq_self_iff_true, ite_true, if_pos hsell]
    exact classify_of_unprofitable _ _
      (List.mem_append_left _ (List.mem_append_right _ hm))

/-- Product for the C4 witness. -/
def c4Product : ProductRow :=
  { id := 1
    canonicalName := "gadget"
    category := none
    firstSeenAt := 0
    lastUpdatedAt := 0
    compositeScore := 0
    velocityScore := 0
    marginScore := 0
    saturationScore := 0
    isActive := true
    isAlerted := false }

/-- One observation selling at 25 dollars at hour 1. -/
def c4Obs : List ObservationRow :=
  [{ productId := 1
     source := "tiktok_cc"
     sourceProductId := "m1"
     observedAt := 1
     priceUsd := some 25
     views := none
     sales := none
     orders := none
     reviews := none
     rating := none
     viewsDelta := none
     salesDelta := none }]

/-- Supplier data that makes the product unprofitable: cost 24 plus
shipping 2 against a 25 dollar selling price. -/
def c4Supplier : SupplierDict :=
  { source := some "aliexpress"
    url := some "https://supplier.test/c4"
    minPrice := some 24
    shippingEstimate := some 2
    deliveryDays := none
    supplierRating := none
    supplierOrders := none
    confidence := none }

/-- Witness for C4: at selling price 25, supplier cost 24, shipping 2
the net margin is -7.775 < 0, the signal fires and the recommendation
is "pass". -/
theorem unprofitable_margin_forces_pass_witness :
    ((0 : ℚ) < 24 ∧ 0 < getLatestPrice c4Obs ∧
        netMargin defaultMarginParams (getLatestPrice c4Obs) 24 2 < 0) ∧
      "unprofitable" ∈ (scoreProduct defaultWeights defaultMarginParams
          defaultSaturationParams c4Product c4Obs (some c4Supplier) 10).signals ∧
        (scoreProduct defaultWeights defaultMarginParams defaultSaturationParams
          c4Product c4Obs (some c4Supplier) 10).recommendation = "pass" := by
  have hlp : getLatestPrice c4Obs = 25 := by decide
  have hnet : netMargin defaultMarginParams (getLatestPrice c4Obs) 24 2 < 0 := by
    rw [hlp]
    norm_num [netMargin, grossMargin, defaultMarginParams, paymentFixedFee]
  refine ⟨⟨by norm_num, by decide, hnet⟩, ?_⟩
  exact unprofitable_margin_forces_pass defaultWeights defaultMarginParams
    defaultSaturationParams c4Product c4Obs c4Supplier 24 2 10 rfl (by norm_num) rfl
    (by decide) hnet

/-- Rounding a real integer at any number of decimals returns it. -/
theorem pyRoundR_intCast (m : ℤ) (n : ℕ) : pyRoundR (m : ℝ) n = (m : ℝ) := by
  have h1 : (m : ℝ) * 10 ^ n = ((m * 10 ^ n : ℤ) : ℝ) := by push_cast; ring
  simp only [pyRoundR, roundHalfEvenR, h1, Int.floor_intCast, sub_self]
  rw [if_pos (by norm_num : (0 : ℝ) < 1 / 2)]
  push_cast
  have hne : ((10 : ℝ)) ^ n ≠ 0 := by positivity
  field_simp

/-- The compound rate step of the C6 scenario: the square root of 4. -/
theorem rpow_four_half : (4 : ℝ) ^ ((1 : ℝ) / 2) = 2 := by
  have h4 : (4 : ℝ) = (2 : ℝ) ^ ((2 : ℕ) : ℝ) := by
    rw [Real.rpow_natCast]
    norm_num
  rw [h4, ← Real.rpow_mul (by norm_num : (0 : ℝ) ≤ 2)]
  rw [show ((2 : ℕ) : ℝ) * (1 / 2) = 1 by norm_num, Real.rpow_one]

/-- Rounding a rational integer at any number of decimals returns it. -/
theorem pyRoundQ_intCast (m : ℤ) (n : ℕ) : pyRoundQ (m : ℚ) n = (m : ℚ) := by
  have h1 : (m : ℚ) * 10 ^ n = ((m * 10 ^ n : ℤ) : ℚ) := by push_cast; ring
  simp only [pyRoundQ, roundHalfEvenQ, h1, Int.floor_intCast, sub_self]
  rw [if_pos (by norm_num : (0 : ℚ) < 1 / 2)]
  push_cast
  field_simp

/-- The growth rate of the C6 view series is exactly 100 percent:
`(2000/500)^(1/2) - 1 = 1`. -/
theorem growthRate_c6 : growthRate [500, 1000, 2000] = some 1 := by
  have hf : (([500, 1000, 2000] : List ℤ).filter (fun v => decide (0 < v))) =
      [500, 1000, 2000] := by decide
  simp only [growthRate, hf]
  rw [if_neg (by decide : ¬ (500 : ℤ) = 0)]
  have hgl : (([1000, 2000] : List ℤ).getLastD 500) = 2000 := by decide
  have hlen : (([1000, 2000] : List ℤ).length) = 2 := by decide
  rw [hgl, hlen]
  have hq : (((2000 : ℤ) : ℝ) / ((500 : ℤ) : ℝ)) = 4 := by norm_num
  have he : ((1 : ℝ) / ((2 : ℕ) : ℝ)) = 1 / 2 := by norm_num
  rw [hq, he, rpow_four_half]
  norm_num

/-- First C6 observation: 500 views at hour 0. -/
def c6o1 : ObservationRow :=
  { productId := 1, source := "tiktok_cc", sourceProductId := "v1", observedAt := 0
    priceUsd := none, views := some 500, sales := none, orders := none, reviews := none
    rating := none, viewsDelta := none, salesDelta := none }

/-- Second C6 observation: 1000 views at hour 24. -/
def c6o2 : ObservationRow :=
  { productId := 1, source := "tiktok_cc", sourceProductId := "v1", observedAt := 24
    priceUsd := none, views := some 1000, sales := none, orders := none, reviews := none
    rating := none, viewsDelta := none, salesDelta := none }

/-- Third C6 observation: 2000 views at hour 48. -/
def c6o3 : ObservationRow :=
  { productId := 1, source := "tiktok_cc", sourceProductId := "v1", observedAt := 48
    priceUsd := none, views := some 2000, sales := none, orders := none, reviews := none
    rating := none, viewsDelta := none, salesDelta := none }

/-- The C6 history: views 500, 1000, 2000 over 48 hours, sales null,
all inside the 72-hour window when scored at hour 50. -/
def c6Obs : List ObservationRow := [c6o1, c6o2, c6o3]

/-- Full evaluation of the velocity scorer on the C6 history at
`now = 50` with the default 72-hour lookback. -/
theorem velocityCalculate_c6 :
    velocityCalculate 72 50 c6Obs =
      { score := 80
        metrics :=
          { viewsGrowthRate := some 1, salesGrowthRate := none
            acceleration := none, hoursOfData := some 48 }
        signals := ["rapid_view_growth"] } := by
  have hlen2 : ¬ (c6Obs.length < 2) := by decide
  have hlen4 : ¬ ((4 : ℕ) ≤ c6Obs.length) := by decide
  have hsort : sortByTime c6Obs = c6Obs := by decide
  have hcut : (50 : ℚ) - 72 = -22 := by norm_num
  have hwin : c6Obs.filter (fun o => decide ((-22 : ℚ) ≤ o.observedAt)) = c6Obs := by decide
  have hfmv : c6Obs.filterMap (fun o => o.views) = [500, 1000, 2000] := by decide
  have hfms : c6Obs.filterMap (fun o => o.sales) = [] := by decide
  have hgrs : growthRate ([] : List ℤ) = none := rfl
  have h14 : pyRoundR (1 : ℝ) 4 = 1 := by simpa using pyRoundR_intCast 1 4
  have h801 : pyRoundR (80 : ℝ) 1 = 80 := by simpa using pyRoundR_intCast 80 1
  simp only [velocityCalculate]
  rw [if_neg hlen2, hsort, hcut, hwin]
  rw [if_neg hlen2, hfmv, hfms, growthRate_c6, hgrs, if_neg hlen4]
  have hgld : (([c6o2, c6o3] : List ObservationRow).getLastD c6o1) = c6o3 := by decide
  have hobs3 : c6o3.observedAt = 48 := rfl
  have hobs1 : c6o1.observedAt = 0 := rfl
  have h48 : (48 : ℚ) - 0 = 48 := by norm_num
  have hpq : pyRoundQ (48 : ℚ) 1 = 48 := by simpa using pyRoundQ_intCast 48 1
  simp only [Option.map_some', Option.map_none', h14, c6Obs, hgld, hobs3, hobs1, h48, hpq]
  rw [if_pos (show (1 : ℝ) / 2 < 1 by norm_num)]
  have hvcs : velocityCompositeScore
      { viewsGrowthRate := some 1, salesGrowthRate := none
        acceleration := none, hoursOfData := some 48 } = 80 := by
    simp only [velocityCompositeScore, Option.getD_some, Option.getD_none]
    norm_num [min_def, max_def]
  rw [hvcs, h801]
  simp

/-- C6 counterexample: on views 500, 1000, 2000 over 48 hours the
velocity score is exactly 80 — `50 + clamp(1.0*60, -20, 30) = 80` — so
the claimed strict inequality `velocity_score > 80` is false. -/
theorem velocity_score_not_strictly_above_80 :
    (velocityCalculate 72 50 c6Obs).score = 80 ∧
      ¬ (80 < (velocityCalculate 72 50 c6Obs).score) := by
  rw [velocityCalculate_c6]
  exact ⟨rfl, by norm_num⟩

/-- C6 amended: the same run computes views_growth_rate exactly 1.0
(100 percent compounded per step), emits the "rapid_view_growth"
signal, and yields a velocity score of exactly 80 (at least 80, but not
strictly greater). -/
theorem velocity_c6_growth_signal_and_score :
    (velocityCalculate 72 50 c6Obs).metrics.viewsGrowthRate = some 1 ∧
      "rapid_view_growth" ∈ (velocityCalculate 72 50 c6Obs).signals ∧
      (velocityCalculate 72 50 c6Obs).score = 80 := by
  rw [velocityCalculate_c6]
  exact ⟨rfl, by simp, rfl⟩

/-!
Embedding of `JobCoordinator._send_alert` from
`src/orchestrator/coordinator.py` as an event trace. Each configured
channel produces a delivery attempt whose outcome is a returned boolean
or a caught exception; the `record` event stands for the
`Database.record_alert` call (append the Alert row, set is_alerted).
-/

/-- Outcome of one channel's `send_alert` call: returned True, returned
False, or raised (the coordinator catches and logs the exception). -/
inductive DeliveryResult
  | success
  | failure
  | raised
deriving DecidableEq, Fintype, Repr

/-- An entry of the `_send_alert` event trace. -/
inductive AlertEvent
  | attempt (channel : String)
  | record
deriving DecidableEq, Repr

/-- Whether the channel call contributed `True` to the `sent` flag. -/
def isSent : DeliveryResult → Bool
  | .success => true
  | .failure => false
  | .raised => false

/-- Embeds `JobCoordinator._send_alert`: try Discord if configured, then
email if configured, each attempt OR-ing its returned flag into `sent`
(exceptions leave it unchanged), and only afterwards — and only when
`sent` is true — record the alert. -/
def sendAlert (discord email : Option DeliveryResult) : List AlertEvent :=
  let discordEvents :=
    match discord with
    | none => []
    | some _ => [AlertEvent.attempt "discord"]
  let sent₁ :=
    match discord with
    | none => false
    | some r => isSent r
  let emailEvents :=
    match email with
    | none => []
    | some _ => [AlertEvent.attempt "email"]
  let sent₂ := sent₁ ||
    (match email with
     | none => false
     | some r => isSent r)
  discordEvents ++ emailEvents ++ (if sent₂ then [AlertEvent.record] else [])

/-- C9 counterexample: the claim says the Alert row is recorded BEFORE
any delivery attempt and that a delivery failure never prevents the
record. In the code the very first trace event of a successful Discord
alert is the delivery attempt (record comes after), and when every
configured channel fails no Alert row is recorded at all. -/
theorem record_happens_after_delivery_attempt :
    sendAlert (some DeliveryResult.success) none =
        [AlertEvent.attempt "discord", AlertEvent.record] ∧
      (sendAlert (some DeliveryResult.success) none).head? =
        some (AlertEvent.attempt "discord") ∧
      AlertEvent.record ∉ sendAlert (some DeliveryResult.failure) (some DeliveryResult.raised) := by
  decide

/-- C9 amended: `_send_alert` is notify-then-record — all configured
channels are attempted first; an Alert row is recorded only afterwards
(as the final trace event) and only when at least one channel returned
success, so a total delivery failure leaves no cooldown record. -/
theorem delivery_attempts_precede_any_record :
    ∀ (d e : Option DeliveryResult),
      (AlertEvent.record ∈ sendAlert d e ↔
          d = some DeliveryResult.success ∨ e = some DeliveryResult.success) ∧
        (AlertEvent.record ∉ sendAlert d e ∨
          (sendAlert d e).getLast? = some AlertEvent.record) := by
  decide
